import Mathlib

/-!
Shallow embedding of the pyservice repository (a request/reply IPC framework):
the metadata model (`src/metadata.py`), the class-based service runtime
(`src/service.py`), the module-level legacy runtime (`src/pyservice.py`) and
the client reply decoder (`src/client.py`), together with theorems checking
the specification's claims against these definitions.

Python dictionaries and JSON documents are embedded as the `Value` type;
Python exceptions raised by handlers are embedded as explicit result
constructors; the asynchronous receive/send loop is embedded as a pure
iteration function from the loop state and the received event to the list of
transport operations it performs and the loop control outcome.
-/

/-- Mirrors `Timeout(Enum)` in `src/metadata.py` (`DEFAULT = 300`,
`LONG = 30000`).  `src/pyservice.py` defines an identical copy. -/
inductive Timeout where
  | DEFAULT
  | LONG
deriving DecidableEq, Repr

/-- The integer value of the enum member (`timeout.value` in Python). -/
def Timeout.value : Timeout → Int
  | .DEFAULT => 300
  | .LONG => 30000

/-- Mirrors the enum value lookup `Timeout(dictionary['timeout'])`: values not
in the enumeration raise `ValueError`, embedded as `none`. -/
def Timeout.fromValue : Int → Option Timeout
  | 300 => some .DEFAULT
  | 30000 => some .LONG
  | _ => none

/-- Embedding of Python dictionaries, lists, strings and integers as passed
around by `to_dictionary`/`from_dictionary` in `src/metadata.py`.  Dictionary
entries keep insertion order, as Python dictionaries do. -/
inductive Value where
  | str (s : String)
  | int (n : Int)
  | list (items : List Value)
  | dict (entries : List (String × Value))
  | null

/-- Embedding of `dictionary[key]`: a lookup on a dictionary value; a missing
key (`KeyError`) or a non-dictionary receiver (`TypeError`) is `none`. -/
def Value.getItem (v : Value) (key : String) : Option Value :=
  match v with
  | .dict entries => (entries.find? (fun p => p.1 = key)).map Prod.snd
  | _ => none

/-- Reads a string out of a value; the dataclass fields populated by
`from_dictionary` are typed `str`, so a non-string here is malformed. -/
def Value.asStr : Value → Option String
  | .str s => some s
  | _ => none

/-- Reads an integer out of a value (the `timeout` field on the wire). -/
def Value.asInt : Value → Option Int
  | .int n => some n
  | _ => none

/-- Reads a list out of a value (the `arguments` field of the `list` shape). -/
def Value.asList : Value → Option (List Value)
  | .list items => some items
  | _ => none

/-- Mirrors `@dataclass Argument` in `src/metadata.py`: an argument to a
service command. -/
structure Argument where
  name : String
  description : String
deriving DecidableEq, Repr

/-- Mirrors `Argument.to_dictionary`. -/
def Argument.to_dictionary (a : Argument) : Value :=
  .dict [("name", .str a.name), ("description", .str a.description)]

/-- Mirrors `Argument.from_dictionary`:
`Argument(dictionary['name'], dictionary['description'])`. -/
def Argument.from_dictionary (dictionary : Value) : Option Argument := do
  let name ← (dictionary.getItem "name").bind Value.asStr
  let description ← (dictionary.getItem "description").bind Value.asStr
  pure ⟨name, description⟩

/-- The `inner` field of `Arguments` in `src/metadata.py`:
`None | List[Argument] | VariableLengthArguments`. -/
inductive ArgumentsInner where
  | noneI
  | listI (items : List Argument)
  | varLenI (inner : Argument)
deriving DecidableEq, Repr

/-- Mirrors `@dataclass Arguments` in `src/metadata.py`: the complete set of
arguments to a service command, wrapping the three-way `inner` field. -/
structure Arguments where
  inner : ArgumentsInner
deriving DecidableEq, Repr

/-- Mirrors `Arguments.__init__(self, *arguments)`: an empty argument tuple
sets `inner` to `None`, a non-empty one to the list itself. -/
def Arguments.construct (arguments : List Argument) : Arguments :=
  if arguments.length = 0 then ⟨.noneI⟩ else ⟨.listI arguments⟩

/-- Mirrors the static method `Arguments.none()`. -/
def Arguments.none : Arguments := Arguments.construct []

/-- Mirrors the static method `Arguments.variable_length(argument)`. -/
def Arguments.variable_length (argument : Argument) : Arguments :=
  ⟨.varLenI argument⟩

/-- Mirrors `Arguments.to_dictionary`: a tagged document with discriminator
key `type` over the tags `none`, `variable_length` and `list`. -/
def Arguments.to_dictionary (a : Arguments) : Value :=
  match a.inner with
  | .noneI => .dict [("type", .str "none")]
  | .varLenI inner =>
      .dict [("type", .str "variable_length"), ("argument", inner.to_dictionary)]
  | .listI items =>
      .dict [("type", .str "list"),
             ("arguments", .list (items.map Argument.to_dictionary))]

/-- Mirrors `Arguments.from_dictionary`: dispatch on `dictionary['type']`;
the `list` branch rebuilds through the `Arguments(*...)` constructor, and an
unknown tag is unreachable per `assert_never` (embedded as `none`). -/
def Arguments.from_dictionary (dictionary : Value) : Option Arguments := do
  let tag ← (dictionary.getItem "type").bind Value.asStr
  match tag with
  | "none" => pure (Arguments.construct [])
  | "variable_length" => do
      let argv ← dictionary.getItem "argument"
      let argument ← Argument.from_dictionary argv
      pure (Arguments.variable_length argument)
  | "list" => do
      let items ← (dictionary.getItem "arguments").bind Value.asList
      let args ← items.mapM Argument.from_dictionary
      pure (Arguments.construct args)
  | _ => Option.none

/-- Mirrors `@dataclass Metadata` in `src/metadata.py`. -/
structure Metadata where
  name : String
  description : String
  timeout : Timeout
  arguments : Arguments
  returns : String
  errors : String
deriving DecidableEq, Repr

instance : Inhabited Metadata :=
  ⟨⟨"", "", .DEFAULT, Arguments.none, "", ""⟩⟩

/-- Mirrors `Metadata.to_dictionary`. -/
def Metadata.to_dictionary (m : Metadata) : Value :=
  .dict [("name", .str m.name),
         ("description", .str m.description),
         ("timeout", .int m.timeout.value),
         ("arguments", m.arguments.to_dictionary),
         ("returns", .str m.returns),
         ("errors", .str m.errors)]

/-- Mirrors `Metadata.from_dictionary`. -/
def Metadata.from_dictionary (dictionary : Value) : Option Metadata := do
  let name ← (dictionary.getItem "name").bind Value.asStr
  let description ← (dictionary.getItem "description").bind Value.asStr
  let timeoutValue ← (dictionary.getItem "timeout").bind Value.asInt
  let timeout ← Timeout.fromValue timeoutValue
  let argumentsValue ← dictionary.getItem "arguments"
  let arguments ← Arguments.from_dictionary argumentsValue
  let returns ← (dictionary.getItem "returns").bind Value.asStr
  let errors ← (dictionary.getItem "errors").bind Value.asStr
  pure ⟨name, description, timeout, arguments, returns, errors⟩

theorem Timeout.fromValue_value (t : Timeout) : Timeout.fromValue t.value = some t := by
  cases t <;> rfl

theorem Argument.from_to_dictionary (a : Argument) :
    Argument.from_dictionary a.to_dictionary = some a := by
  cases a
  simp [Argument.from_dictionary, Argument.to_dictionary, Value.getItem,
    List.find?, Value.asStr, Option.bind]

theorem Argument.from_to_dictionary_list (l : List Argument) :
    (l.map Argument.to_dictionary).mapM Argument.from_dictionary = some l := by
  induction l with
  | nil => rfl
  | cons a rest ih =>
    rw [List.map_cons, List.mapM_cons, Argument.from_to_dictionary, ih]
    rfl

theorem Arguments.shape_from_to_dictionary (x : Arguments)
    (h : ∀ l, x.inner = .listI l → l ≠ []) :
    Arguments.from_dictionary x.to_dictionary = some x := by
  obtain ⟨inner⟩ := x
  cases inner with
  | noneI =>
    rfl
  | listI items =>
    have hne : items ≠ [] := h items rfl
    show ((items.map Argument.to_dictionary).mapM Argument.from_dictionary).bind
        (fun args => some (Arguments.construct args)) = some ⟨.listI items⟩
    rw [Argument.from_to_dictionary_list]
    simp [Arguments.construct, List.length_eq_zero, hne]
  | varLenI a =>
    simp [Arguments.from_dictionary, Arguments.to_dictionary, Value.getItem,
      List.find?, Value.asStr, Option.bind, Argument.from_to_dictionary,
      Arguments.variable_length]

/-- Four-digit lowercase hexadecimal rendering used by JSON `\uXXXX` escapes. -/
def hex4 (n : Nat) : String :=
  let digits := Nat.toDigits 16 n
  ⟨List.replicate (4 - digits.length) '0' ++ digits⟩

/-- JSON escape of one character as `json.dumps` produces with its default
`ensure_ascii=True`: the two-character escapes for quote, backslash and
control characters with short forms, `\uXXXX` for other control or non-ASCII
characters (surrogate pairs above the basic plane), the character itself
otherwise. -/
def jsonEscapeChar (c : Char) : String :=
  if c = '"' then "\\\""
  else if c = '\\' then "\\\\"
  else if c = '\n' then "\\n"
  else if c = '\t' then "\\t"
  else if c = '\r' then "\\r"
  else if c.toNat = 8 then "\\b"
  else if c.toNat = 12 then "\\f"
  else if c.toNat < 32 ∨ c.toNat > 126 then
    if c.toNat ≤ 0xFFFF then "\\u" ++ hex4 c.toNat
    else
      "\\u" ++ hex4 (0xD800 + (c.toNat - 0x10000) / 0x400)
      ++ "\\u" ++ hex4 (0xDC00 + (c.toNat - 0x10000) % 0x400)
  else String.singleton c

/-- JSON rendering of a string literal, quotes included. -/
def jsonDumpsString (s : String) : String :=
  "\"" ++ String.join (s.data.map jsonEscapeChar) ++ "\""

mutual

/-- Embedding of `json.dumps` on the documents this program serializes
(`json.dumps(metadata.to_dictionary())`), with the default separators
`", "` and `": "` and dictionary entries in insertion order. -/
def jsonDumps : Value → String
  | .str s => jsonDumpsString s
  | .int n => toString n
  | .list items => "[" ++ String.intercalate ", " (jsonDumpsList items) ++ "]"
  | .dict entries =>
      "\x7b" ++ String.intercalate ", " (jsonDumpsEntries entries) ++ "\x7d"
  | .null => "null"

/-- Renders each element of a JSON array. -/
def jsonDumpsList : List Value → List String
  | [] => []
  | v :: rest => jsonDumps v :: jsonDumpsList rest

/-- Renders each `"key": value` entry of a JSON object. -/
def jsonDumpsEntries : List (String × Value) → List String
  | [] => []
  | e :: rest => (jsonDumpsString e.1 ++ ": " ++ jsonDumps e.2) :: jsonDumpsEntries rest

end

/-- An exception value as the service loop observes it: the module of its
type, the name of its type (`type(e).__name__`) and its string form
(`str(e)`). -/
structure PyExc where
  module : String
  name : String
  str : String
deriving DecidableEq, Repr

/-- The outcome of invoking a handler, embedding both a normal return and the
exceptions the loop in `Service.run` classifies.

Modelled from the spec: the `pyservice` package module imported by
`src/service.py` (`ServiceException`, `UnknownCommandException`,
`FatalServiceError`) is not under `src/`; per the spec's error taxonomy a
`ServiceException` carries a wire error-code token (`error_code.value`) and a
message (`args[0]`), `UnknownCommandException` is the `ServiceException`
whose token is `ERROR_UNKNOWN_COMMAND` and whose payload carries the
offending command name verbatim, and `FatalServiceError` is re-raised past
the loop. -/
inductive HandlerResult where
  | ok (response : List String)
  | serviceExc (error_code : String) (message : String)
  | fatalServiceError
  | keyboardInterrupt
  | exc (e : PyExc)
deriving DecidableEq, Repr

/-- A handler registered in the command map: one of the four built-in
closures registered by `Service.__register_common_commands` (each closing
over `self`), or a user-supplied function. -/
inductive Handler where
  | describeH
  | listH
  | helpH
  | metadataH
  | userH (f : List String → HandlerResult)

/-- Mirrors the `CommandInfo` entry stored by `Service.register_command`:
a dictionary with `handler` and `metadata` keys, each of which the service
code checks for presence before use. -/
structure CommandInfo where
  handler : Option Handler
  metadata : Option Metadata

/-- Embedding of `d.get(key)` / `d[key]` on a string-keyed Python
dictionary kept as an insertion-ordered association list with unique keys. -/
def assocGet (m : List (String × α)) (key : String) : Option α :=
  (m.find? (fun p => p.1 = key)).map Prod.snd

/-- Embedding of `d[key] = value` on a Python dictionary: replacing an
existing key keeps its original insertion position, a new key is appended. -/
def assocSet (m : List (String × α)) (key : String) (value : α) : List (String × α) :=
  if m.any (fun p => p.1 = key) then
    m.map (fun p => if p.1 = key then (key, value) else p)
  else m ++ [(key, value)]

/-- Mirrors the `Service` class of `src/service.py`: the command registry
plus the `name()` and `description()` strings the concrete subclass
supplies. -/
structure Service where
  service_name : String
  service_description : String
  command_map : List (String × CommandInfo)

/-- Mirrors `Service.register_command`: insert or replace. -/
def Service.register_command (s : Service) (command : String) (handler : Handler)
    (metadata : Metadata) : Service :=
  { s with command_map := assocSet s.command_map command ⟨some handler, some metadata⟩ }

/-- Mirrors `Service.describe`. -/
def Service.describe (s : Service) : List String :=
  [s.service_name, s.service_description]

/-- Mirrors `Service.list`: `list(self.command_map.keys())`. -/
def Service.list (s : Service) : List String :=
  s.command_map.map Prod.fst

/-- The markdown help string `Service.help_screen` renders for one command
from its metadata (the `help_string` accumulation in `src/service.py`,
lines 148-165). -/
def helpArgumentLine (argument : Argument) : String :=
  "*" ++ argument.name ++ "* - " ++ argument.description ++ "\\\n"

/-- The part of the help entry accumulated before the timeout check: bold
header and description line. -/
def helpStringHead (command : String) (metadata : Metadata) : String :=
  "**" ++ command ++ "**\\\n" ++ metadata.description ++ "\\\n"

/-- The line `Service.help_screen` appends when `timeout.value > 300`. -/
def longRunLine : String := "Can take a long time to run.\\\n"

/-- The part of the help entry accumulated after the timeout check: the
Arguments section rendered by argument-shape case, then Returns and Errors
sections. -/
def helpStringTail (metadata : Metadata) : String :=
  "\\\n**Arguments**\\\n"
  ++ (match metadata.arguments.inner with
      | .noneI => "None\\\n"
      | .varLenI argument =>
          "This function accepts one or more of the following argument:\\\n"
          ++ helpArgumentLine argument
      | .listI args => String.join (args.map helpArgumentLine))
  ++ "\\\n**Returns**\\\n"
  ++ metadata.returns ++ "\\\n\\\n"
  ++ "**Errors**\\\n"
  ++ metadata.errors

/-- Renders one command's help entry exactly as `Service.help_screen` does:
bold header, description, the long-running line when `timeout.value > 300`,
the Arguments section by argument-shape case, Returns and Errors sections. -/
def helpString (command : String) (metadata : Metadata) : String :=
  helpStringHead command metadata
  ++ (if metadata.timeout.value > 300 then longRunLine else "")
  ++ helpStringTail metadata

/-- The iteration of `Service.help_screen` over the registry: one rendered
string per command in insertion order; a missing or invalid metadata entry
raises `RuntimeError` (embedded as `.error` with the message raised at the
first such entry). -/
def helpScreenList : List (String × CommandInfo) → Except String (List String)
  | [] => .ok []
  | (command, command_info) :: rest =>
    match command_info.metadata with
    | some metadata =>
        (helpScreenList rest).map (fun response => helpString command metadata :: response)
    | Option.none => .error ("metadata missing or invalid for " ++ command)

/-- Mirrors `Service.help_screen`. -/
def Service.help_screen (s : Service) : Except String (List String) :=
  helpScreenList s.command_map

/-- Mirrors `Service.__metadata_impl`: registry miss raises
`UnknownCommandException(function_name)` (the name passed verbatim), a
present entry without metadata raises `RuntimeError`. -/
def Service.metadata_impl (s : Service) (function_name : String) :
    Except HandlerResult Metadata :=
  match assocGet s.command_map function_name with
  | some command =>
    match command.metadata with
    | some metadata => .ok metadata
    | Option.none =>
        .error (.exc ⟨"builtins", "RuntimeError", "metadata missing for " ++ function_name⟩)
  | Option.none => .error (.serviceExc "ERROR_UNKNOWN_COMMAND" function_name)

/-- Mirrors `Service.metadata`: with a non-empty argument list, one JSON
document per requested name produced left to right (the comprehension raises
out at the first failing name); with an empty list, `ValueError`. -/
def Service.metadata_cmd (s : Service) (arguments : List String) : HandlerResult :=
  if arguments.length > 0 then
    match arguments.mapM
        (fun command => (s.metadata_impl command).map
          (fun metadata => jsonDumps metadata.to_dictionary)) with
    | .ok docs => .ok docs
    | .error e => e
  else .exc ⟨"builtins", "ValueError", "Expected one or more commands as arguments"⟩

/-- Invokes a registered handler on the argument list: the built-in closures
evaluate against the service (`self`) at call time, a user handler is
applied directly. -/
def Service.runHandler (s : Service) (handler : Handler) (arguments : List String) :
    HandlerResult :=
  match handler with
  | .describeH => .ok s.describe
  | .listH => .ok s.list
  | .helpH =>
    match s.help_screen with
    | .ok response => .ok response
    | .error message => .exc ⟨"builtins", "RuntimeError", message⟩
  | .metadataH => s.metadata_cmd arguments
  | .userH f => f arguments

/-- Mirrors `State(Enum)` in `src/pyservice.py`: the two states of the
receive/send state machine. -/
inductive State where
  | SENDING
  | RECEIVING
deriving DecidableEq, Repr

/-- A transport operation the loop performs on its socket: a multipart
receive or a multipart send. -/
inductive TransportOp where
  | recv (message : List String)
  | send (frames : List String)
deriving DecidableEq, Repr

/-- Whether the operation is a receive. -/
def TransportOp.isRecv : TransportOp → Bool
  | .recv _ => true
  | .send _ => false

/-- What `await socket.recv_multipart()` yields when the loop is allowed to
receive: a multipart message, or a keyboard interrupt at the suspension
point. -/
inductive RecvEvent where
  | msg (frames : List String)
  | interrupt

/-- How one loop iteration ends: continue in a state, `break` out of the
loop (keyboard interrupt), `exit(1)` (state violation before any reply), or
re-raise a fatal error past the loop. -/
inductive LoopControl where
  | next (state : State)
  | breakLoop
  | exitProcess
  | reraise
deriving DecidableEq, Repr

/-- The transport operations one iteration performed and how it ended. -/
structure IterResult where
  ops : List TransportOp
  control : LoopControl
deriving DecidableEq, Repr

/-- What the receive step observes. -/
inductive ReceiveOutcome where
  | received (message : List String) (state : State)
  | interrupted
  | stateViolation

/-- Mirrors lines 257-261 of `src/service.py`: receive only in state
`RECEIVING` and transition to `SENDING`; receiving in any other state raises
`StateException`. -/
def receiveMessage : State → RecvEvent → ReceiveOutcome
  | .RECEIVING, .msg message => .received message .SENDING
  | .RECEIVING, .interrupt => .interrupted
  | .SENDING, _ => .stateViolation

/-- Mirrors the `OK` send (lines 275-279): the send happens only in state
`SENDING`; otherwise the raised `StateException` is caught by the
`except StateException` arm, which logs and calls `exit(1)`. -/
def sendOkChecked (state : State) (response : List String) : IterResult :=
  if state = .SENDING then ⟨[.send ("OK" :: response)], .next .RECEIVING⟩
  else ⟨[], .exitProcess⟩

/-- Mirrors the error-reply sends in the exception arms (lines 291-297 and
304-310): in state `SENDING` the three-frame `ERROR` reply is sent and the
state returns to `RECEIVING`; in any other state the violation is only
logged and the loop continues in that state (best effort). -/
def sendErrorBestEffort (state : State) (code message : String) : IterResult :=
  if state = .SENDING then ⟨[.send ["ERROR", code, message]], .next .RECEIVING⟩
  else ⟨[], .next state⟩

/-- Mirrors the body of `Service.run` after a message has been received
(lines 263-310): decode the command and arguments, look the command up
(`UnknownCommandException` on a miss), check the handler entry, invoke the
handler, and send the reply or the classified error reply.  An empty message
makes `message[0]` raise `IndexError`, which the generic `except Exception`
arm turns into an `ERROR_UNCATEGORISED` reply. -/
def dispatchMessage (s : Service) (state : State) (message : List String) : IterResult :=
  match message with
  | [] =>
      sendErrorBestEffort state "ERROR_UNCATEGORISED"
        "builtins.IndexError: list index out of range"
  | command :: arguments =>
    match assocGet s.command_map command with
    | Option.none => sendErrorBestEffort state "ERROR_UNKNOWN_COMMAND" command
    | some command_info =>
      match command_info.handler with
      | Option.none =>
          sendErrorBestEffort state "ERROR_UNCATEGORISED"
            ("builtins.RuntimeError: handler missing or not valid for " ++ command)
      | some handler =>
        match s.runHandler handler arguments with
        | .ok response => sendOkChecked state response
        | .serviceExc code payload => sendErrorBestEffort state code payload
        | .fatalServiceError => ⟨[], .reraise⟩
        | .keyboardInterrupt => ⟨[], .breakLoop⟩
        | .exc e =>
            sendErrorBestEffort state "ERROR_UNCATEGORISED"
              ("builtins." ++ e.name ++ ": " ++ e.str)

/-- One iteration of the `while True` loop of `Service.run`: the receive
step followed by dispatch.  The message string in the generic error arm uses
`type(Exception()).__module__`, the module of the builtin `Exception` class,
which is the constant string `builtins` whatever the raised exception's own
module is. -/
def serviceIteration (s : Service) (state : State) (ev : RecvEvent) : IterResult :=
  match receiveMessage state ev with
  | .stateViolation => ⟨[], .exitProcess⟩
  | .interrupted => ⟨[], .breakLoop⟩
  | .received message stateAfterReceive =>
    let r := dispatchMessage s stateAfterReceive message
    { r with ops := .recv message :: r.ops }

/-- Runs the loop of `Service.run` over a script of receive events,
collecting every transport operation performed on the service socket in
order; the loop stops at a `break`, `exit(1)` or re-raise. -/
def runLoop (s : Service) : State → List RecvEvent → List TransportOp
  | _, [] => []
  | state, ev :: rest =>
    let r := serviceIteration s state ev
    match r.control with
    | .next nextState => r.ops ++ runLoop s nextState rest
    | _ => r.ops

/-- The transport-operation trace of `Service.run`, which enters the loop in
the initial state `RECEIVING` (line 252). -/
def Service.runTrace (s : Service) (script : List RecvEvent) : List TransportOp :=
  runLoop s .RECEIVING script

/-- The metadata registered for the built-in `describe` command
(`src/service.py` lines 49-56). -/
def describeMetadata : Metadata :=
  ⟨"describe", "Returns the description of the service.", .DEFAULT,
   Arguments.none, "The description of the service.", "None"⟩

/-- The metadata registered for the built-in `list` command (lines 60-66). -/
def listMetadata : Metadata :=
  ⟨"list", "Lists the available service commands.", .DEFAULT,
   Arguments.none, "A list of available service commands.", "None"⟩

/-- The metadata registered for the built-in `help` command (lines 70-76). -/
def helpMetadata : Metadata :=
  ⟨"help", "Describes the available service commands.", .DEFAULT,
   Arguments.none, "A list of strings describing the available service commands.",
   "*RuntimeError* - metadata is missing or invalid."⟩

/-- The metadata registered for the built-in `metadata` command (lines
78-88); its errors string is a triple-quoted literal containing a
backslash, a newline and the source indentation. -/
def metadataMetadata : Metadata :=
  ⟨"metadata", "Returns metadata for the provided list of commands.", .DEFAULT,
   Arguments.variable_length ⟨"command", "The command to retrieve metadata for."⟩,
   "A list of metadata for the commmands in JSON",
   "*ValueError* - arguments are empty.\\\n                   *RuntimeError* - metadata is missing."⟩

/-- Mirrors `Service.__init__` followed by
`Service.__register_common_commands`: a fresh service whose registry holds
exactly the four built-in commands, registered in source order. -/
def Service.new (service_name service_description : String) : Service :=
  (((({ service_name, service_description, command_map := [] } : Service).register_command
      "describe" .describeH describeMetadata).register_command
      "list" .listH listMetadata).register_command
      "help" .helpH helpMetadata).register_command
      "metadata" .metadataH metadataMetadata

/-- Mirrors the `Metadata` dataclass of `src/pyservice.py`, whose
`arguments` field is a plain string rather than an argument shape. -/
structure PyMetadata where
  name : String
  description : String
  timeout : Timeout
  arguments : String
  returns : String
  errors : String
deriving DecidableEq, Repr

/-- Mirrors `Metadata.to_dictionary` of `src/pyservice.py`. -/
def PyMetadata.to_dictionary (m : PyMetadata) : Value :=
  .dict [("name", .str m.name),
         ("description", .str m.description),
         ("timeout", .int m.timeout.value),
         ("arguments", .str m.arguments),
         ("returns", .str m.returns),
         ("errors", .str m.errors)]

/-- Renders an optional string the way Python string-formats it: `None`
prints as the literal `None`. -/
def pyStr : Option String → String
  | Option.none => "None"
  | some s => s

/-- An exception raised inside the `src/pyservice.py` module functions, as
classified by the `except` arms of `service_main`:
`UnknownCommandException` (whose `command` attribute is the constructor
argument, possibly `None`), a keyboard interrupt, or any other exception
(`ValueError`, `RuntimeError`, ...) handled by the generic arm. -/
inductive PyRaise where
  | unknownCommandExc (command : Option String)
  | keyboardInterruptExc
  | otherExc (e : PyExc)
deriving DecidableEq, Repr

/-- The `str()` form of `UnknownCommandException(command)` in
`src/pyservice.py` lines 47-55: `f'unknown command \x7bcommand\x7d'`. -/
def unknownCommandStr (command : Option String) : String :=
  "unknown command " ++ pyStr command

/-- A handler of the module-level command map of `src/pyservice.py`. -/
inductive PyHandler where
  | helpH
  | metadataH
  | userH (f : List String → Except PyRaise (List String))

/-- A command entry of the module-level command map. -/
structure PyCommandInfo where
  handler : Option PyHandler
  metadata : Option PyMetadata

/-- Mirrors `__metadata_impl` of `src/pyservice.py` (lines 138-147): on a
registry miss it raises `UnknownCommandException(command)` where `command`
is the result of `command_map().get(function_name)` — that is, `None` — not
the requested name. -/
def pyMetadataImpl (cm : List (String × PyCommandInfo)) (function_name : String) :
    Except PyRaise PyMetadata :=
  match assocGet cm function_name with
  | some command =>
    match command.metadata with
    | some metadata => .ok metadata
    | Option.none =>
        .error (.otherExc ⟨"builtins", "RuntimeError", "metadata missing for " ++ function_name⟩)
  | Option.none => .error (.unknownCommandExc Option.none)

/-- Mirrors `metadata` of `src/pyservice.py` (lines 116-135). -/
def pyMetadataCmd (cm : List (String × PyCommandInfo)) (arguments : List String) :
    Except PyRaise (List String) :=
  if arguments.length > 0 then
    arguments.mapM
      (fun command => (pyMetadataImpl cm command).map
        (fun metadata => jsonDumps metadata.to_dictionary))
  else .error (.otherExc ⟨"builtins", "ValueError", "Expected one or more commands as arguments"⟩)

/-- Mirrors `help_screen` of `src/pyservice.py` (lines 95-113), which prints
the string-typed `arguments` field directly. -/
def pyHelpScreen : List (String × PyCommandInfo) → Except String (List String)
  | [] => .ok []
  | (command, command_info) :: rest =>
    match command_info.metadata with
    | some metadata =>
        (pyHelpScreen rest).map (fun response =>
          ("**" ++ command ++ "**\\\n"
           ++ metadata.description ++ "\\\n"
           ++ (if metadata.timeout.value > 300 then "Can take a long time to run.\\\n" else "")
           ++ "\\\n**Arguments**\\\n"
           ++ metadata.arguments ++ "\\\n\\\n"
           ++ "**Returns**\\\n"
           ++ metadata.returns ++ "\\\n\\\n"
           ++ "**Errors**\\\n"
           ++ metadata.errors) :: response)
    | Option.none => .error ("metadata missing or invalid for " ++ command)

/-- Invokes a handler of the module-level runtime. -/
def pyRunHandler (cm : List (String × PyCommandInfo)) (handler : PyHandler)
    (arguments : List String) : Except PyRaise (List String) :=
  match handler with
  | .helpH =>
    match pyHelpScreen cm with
    | .ok response => .ok response
    | .error message => .error (.otherExc ⟨"builtins", "RuntimeError", message⟩)
  | .metadataH => pyMetadataCmd cm arguments
  | .userH f => f arguments

/-- The module-level `__command_map` of `src/pyservice.py` (lines 150-170):
only `help` and `metadata` are pre-registered there. -/
def pyCommandMap : List (String × PyCommandInfo) :=
  [("help",
    ⟨some .helpH,
     some ⟨"help", "Describes available service commands.", .DEFAULT, "None",
           "A list of strings describing the available service commands.",
           "*RuntimeError* - metadata is missing or invalid."⟩⟩),
   ("metadata",
    ⟨some .metadataH,
     some ⟨"metadata", "Describes the given command.", .DEFAULT,
           "A list of commands to describe.",
           "A list of metadata for the commmands in JSON",
           "*ValueError* - arguments are empty.\\\n                                    *RuntimeError* - metadata is missing."⟩⟩)]

/-- Mirrors the body of the `while True` loop of `service_main` in
`src/pyservice.py` (lines 200-257) after a message has been received: a
registry miss raises `UnknownCommandException`, and the
`except UnknownCommandException` arm replies with the constant message
`unknown command` (line 241), not with the requested name. -/
def serviceMainDispatch (cm : List (String × PyCommandInfo)) (state : State)
    (message : List String) : IterResult :=
  match message with
  | [] =>
      sendErrorBestEffort state "ERROR_UNCATEGORISED"
        "builtins.IndexError: list index out of range"
  | command :: arguments =>
    match assocGet cm command with
    | Option.none => sendErrorBestEffort state "ERROR_UNKNOWN_COMMAND" "unknown command"
    | some command_info =>
      match command_info.handler with
      | Option.none =>
          sendErrorBestEffort state "ERROR_UNCATEGORISED"
            ("builtins.RuntimeError: handler missing or not valid for " ++ command)
      | some handler =>
        match pyRunHandler cm handler arguments with
        | .ok response => sendOkChecked state response
        | .error (.unknownCommandExc _) =>
            sendErrorBestEffort state "ERROR_UNKNOWN_COMMAND" "unknown command"
        | .error .keyboardInterruptExc => ⟨[], .breakLoop⟩
        | .error (.otherExc e) =>
            sendErrorBestEffort state "ERROR_UNCATEGORISED"
              ("builtins." ++ e.name ++ ": " ++ e.str)

/-- One iteration of the `service_main` loop: receive step, then dispatch. -/
def serviceMainIteration (cm : List (String × PyCommandInfo)) (state : State)
    (ev : RecvEvent) : IterResult :=
  match receiveMessage state ev with
  | .stateViolation => ⟨[], .exitProcess⟩
  | .interrupted => ⟨[], .breakLoop⟩
  | .received message stateAfterReceive =>
    let r := serviceMainDispatch cm stateAfterReceive message
    { r with ops := .recv message :: r.ops }

/-- Runs the `service_main` loop over a script of receive events. -/
def serviceMainLoop (cm : List (String × PyCommandInfo)) :
    State → List RecvEvent → List TransportOp
  | _, [] => []
  | state, ev :: rest =>
    let r := serviceMainIteration cm state ev
    match r.control with
    | .next nextState => r.ops ++ serviceMainLoop cm nextState rest
    | _ => r.ops

/-- The transport-operation trace of `service_main`, which enters its loop
in state `RECEIVING` (line 198). -/
def serviceMainTrace (cm : List (String × PyCommandInfo)) (script : List RecvEvent) :
    List TransportOp :=
  serviceMainLoop cm .RECEIVING script

/-- What the client's `socket.recv_multipart()` in `__call_impl` yields: a
multipart reply, or `zmq.error.Again` when the receive deadline elapses. -/
inductive RecvOutcome where
  | timedOut
  | msg (frames : List String)

/-- The typed failure a client call ends in, mirroring the exception
classes of `src/client.py` and `src/pyservice.py`:
`TimeoutException`, `ProtocolException`, `UnknownCommandException` and
`ServiceException (error_code, reason)`; `ok` is a normal return. -/
inductive ClientResult where
  | ok (response : List String)
  | timeoutExc (message : String)
  | protocolExc (message : String)
  | unknownCommandExc (message : String)
  | serviceExc (error_code : String) (message : String)
deriving DecidableEq, Repr

/-- Python `repr` of a list of byte strings as interpolated into the
`ProtocolException` messages (byte-level escaping elided). -/
def pyReprBytesList (frames : List String) : String :=
  "[" ++ String.intercalate ", " (frames.map (fun f => "b'" ++ f ++ "'")) ++ "]"

/-- Mirrors the reply handling of `__call_impl` in `src/client.py` (lines
89-115): a timed-out receive raises `TimeoutException`; an empty reply
raises `ProtocolException`; an `OK` first frame returns the remaining
frames; an `ERROR` first frame with exactly three frames raises
`UnknownCommandException` for the `ERROR_UNKNOWN_COMMAND` code and
`ServiceException` otherwise, and with any other frame count raises
`ProtocolException`; any other first frame raises `ProtocolException`. -/
def callImplDecode (rcvtimeo : Int) (r : RecvOutcome) : ClientResult :=
  match r with
  | .timedOut => .timeoutExc ("no response from service after " ++ toString rcvtimeo ++ " ms")
  | .msg [] => .protocolExc "empty response"
  | .msg (first :: rest) =>
    if first = "OK" then .ok rest
    else if first = "ERROR" then
      if (first :: rest).length = 3 then
        match rest with
        | [error_code, error_message] =>
          if error_code = "ERROR_UNKNOWN_COMMAND" then .unknownCommandExc error_message
          else .serviceExc error_code error_message
        | _ => .protocolExc ("invalid error response: " ++ pyReprBytesList (first :: rest))
      else .protocolExc ("invalid error response: " ++ pyReprBytesList (first :: rest))
    else .protocolExc ("invalid response: " ++ pyReprBytesList (first :: rest))

/-- C2: for every Metadata record (any name, description, timeout in the
enumeration, argument shape among the three variants — a list shape holding
at least one descriptor, the only list shapes the `Arguments` constructor
produces — returns and errors strings),
`Metadata.from_dictionary(m.to_dictionary())` equals `m`. -/
theorem claim_C2_metadata_roundtrip (m : Metadata)
    (h : ∀ l, m.arguments.inner = .listI l → l ≠ []) :
    Metadata.from_dictionary m.to_dictionary = some m := by
  obtain ⟨name, description, timeout, args, returns, errors⟩ := m
  simp only at h
  simp [Metadata.to_dictionary, Metadata.from_dictionary, Value.getItem,
    List.find?, Value.asStr, Value.asInt, Timeout.fromValue_value,
    Arguments.shape_from_to_dictionary args h]

theorem claim_C2_witness :
    Metadata.from_dictionary
      (Metadata.to_dictionary
        ⟨"echo", "Echoes.", .DEFAULT, Arguments.construct [⟨"x", "any"⟩], "The arguments.", "None"⟩)
      = some ⟨"echo", "Echoes.", .DEFAULT, Arguments.construct [⟨"x", "any"⟩], "The arguments.", "None"⟩ :=
  claim_C2_metadata_roundtrip _
    (by intro l hl; simp [Arguments.construct] at hl; subst hl; decide)

/-- C3: for every argument-shape value of any of the three variants (none,
variable_length with an inner descriptor, list of descriptors — at least one,
as the constructor produces), `Arguments.from_dictionary(x.to_dictionary())`
equals `x`. -/
theorem claim_C3_arguments_roundtrip (x : Arguments)
    (h : ∀ l, x.inner = .listI l → l ≠ []) :
    Arguments.from_dictionary x.to_dictionary = some x :=
  Arguments.shape_from_to_dictionary x h

theorem claim_C3_witness :
    (Arguments.from_dictionary (Arguments.to_dictionary Arguments.none) = some Arguments.none)
    ∧ (Arguments.from_dictionary (Arguments.to_dictionary (Arguments.variable_length ⟨"x", "any"⟩))
        = some (Arguments.variable_length ⟨"x", "any"⟩))
    ∧ (Arguments.from_dictionary (Arguments.to_dictionary (Arguments.construct [⟨"a", "first"⟩]))
        = some (Arguments.construct [⟨"a", "first"⟩])) :=
  ⟨claim_C3_arguments_roundtrip _ (by intro l hl; simp [Arguments.none, Arguments.construct] at hl),
   claim_C3_arguments_roundtrip _ (by intro l hl; simp [Arguments.variable_length] at hl),
   claim_C3_arguments_roundtrip _
     (by intro l hl; simp [Arguments.construct] at hl; subst hl; decide)⟩

/-- C10: decoding the argument-shape document
`{'type': 'list', 'arguments': []}` yields the `none` variant; every
list-variant value the `Arguments(*arguments)` constructor produces holds at
least one descriptor; and a value whose `inner` is the empty list does not
round-trip. -/
theorem claim_C10_empty_list_shape :
    Arguments.from_dictionary (.dict [("type", .str "list"), ("arguments", .list [])])
      = some Arguments.none
    ∧ (∀ (args : List Argument) (l : List Argument),
        (Arguments.construct args).inner = .listI l → l ≠ [])
    ∧ (∀ x : Arguments, x.inner = .listI [] →
        Arguments.from_dictionary x.to_dictionary ≠ some x) := by
  refine ⟨rfl, ?_, ?_⟩
  · intro args l h
    by_cases ha : args.length = 0
    · simp [Arguments.construct, ha] at h
    · simp [Arguments.construct, ha] at h
      subst h
      intro hnil
      exact ha (by simp [hnil])
  · intro x hx
    obtain ⟨inner⟩ := x
    simp only at hx
    subst hx
    decide

theorem claim_C10_witness :
    (Arguments.from_dictionary (.dict [("type", .str "list"), ("arguments", .list [])])
      = some Arguments.none)
    ∧ ([(⟨"a", "first"⟩ : Argument)] ≠ [])
    ∧ (Arguments.from_dictionary (Arguments.to_dictionary ⟨.listI []⟩) ≠ some ⟨.listI []⟩) :=
  ⟨claim_C10_empty_list_shape.1,
   claim_C10_empty_list_shape.2.1 [⟨"a", "first"⟩] [⟨"a", "first"⟩] rfl,
   claim_C10_empty_list_shape.2.2 ⟨.listI []⟩ rfl⟩

/-- C9: for a freshly constructed service with no custom commands
registered, the built-in `list` command replies with exactly the four names
`describe`, `list`, `help`, `metadata` in built-in registration order. -/
theorem claim_C9_fresh_service_list (service_name service_description : String) :
    (Service.new service_name service_description).list
        = ["describe", "list", "help", "metadata"]
    ∧ serviceIteration (Service.new service_name service_description) .RECEIVING (.msg ["list"])
        = ⟨[.recv ["list"], .send ["OK", "describe", "list", "help", "metadata"]],
           .next .RECEIVING⟩ :=
  ⟨rfl, rfl⟩

/-- C4: the claim expects the reply to a request for the unregistered
command `nope` to be exactly `[ERROR, ERROR_UNKNOWN_COMMAND, nope]`.  The
`service_main` loop of `src/pyservice.py` instead sends the constant message
frame `unknown command` (line 241); the class-based loop of `src/service.py`
(whose `UnknownCommandException` payload is modelled from the spec) does
reply with the offending name. -/
theorem claim_C4_unknown_command_reply :
    serviceMainIteration pyCommandMap .RECEIVING (.msg ["nope"])
      = ⟨[.recv ["nope"], .send ["ERROR", "ERROR_UNKNOWN_COMMAND", "unknown command"]],
         .next .RECEIVING⟩
    ∧ ("unknown command" : String) ≠ "nope"
    ∧ serviceIteration (Service.new "svc" "desc") .RECEIVING (.msg ["nope"])
      = ⟨[.recv ["nope"], .send ["ERROR", "ERROR_UNKNOWN_COMMAND", "nope"]],
         .next .RECEIVING⟩ :=
  ⟨rfl, by decide, rfl⟩

/-- C5: the claim expects the built-in `metadata` handler to raise
UnknownCommand carrying the first unregistered name verbatim.  The
`__metadata_impl` of `src/pyservice.py` raises `UnknownCommandException(command)`
where `command` is the `None` result of the failed registry lookup (line
147), so the payload is `None` rather than the name; the class-based
`Service.__metadata_impl` of `src/service.py` passes the name verbatim and
short-circuits at the first unregistered name. -/
theorem claim_C5_metadata_unknown_payload :
    pyMetadataImpl pyCommandMap "nope" = .error (.unknownCommandExc Option.none)
    ∧ pyMetadataCmd pyCommandMap ["help", "nope", "metadata"]
        = .error (.unknownCommandExc Option.none)
    ∧ unknownCommandStr Option.none = "unknown command None"
    ∧ (Service.new "svc" "desc").metadata_cmd ["describe", "nope", "list"]
        = .serviceExc "ERROR_UNKNOWN_COMMAND" "nope" :=
  ⟨rfl, rfl, rfl, rfl⟩

/-- C6: for every reply received by the client call: a zero-frame reply
raises `ProtocolException`; a reply whose first frame is neither `OK` nor
`ERROR` raises `ProtocolException`; an `ERROR` reply not having exactly
three frames raises `ProtocolException`; an elapsed receive deadline raises
`TimeoutException`; and only an `OK`-first reply returns, yielding its
remaining frames. -/
theorem claim_C6_client_reply_decoding :
    (∀ t : Int, callImplDecode t (.msg []) = .protocolExc "empty response")
    ∧ (∀ (t : Int) (first : String) (rest : List String),
        first ≠ "OK" → first ≠ "ERROR" →
        callImplDecode t (.msg (first :: rest))
          = .protocolExc ("invalid response: " ++ pyReprBytesList (first :: rest)))
    ∧ (∀ (t : Int) (rest : List String), ("ERROR" :: rest).length ≠ 3 →
        callImplDecode t (.msg ("ERROR" :: rest))
          = .protocolExc ("invalid error response: " ++ pyReprBytesList ("ERROR" :: rest)))
    ∧ (∀ t : Int, callImplDecode t .timedOut
        = .timeoutExc ("no response from service after " ++ toString t ++ " ms"))
    ∧ (∀ (t : Int) (r : RecvOutcome) (response : List String),
        callImplDecode t r = .ok response → r = .msg ("OK" :: response)) := by
  refine ⟨fun t => rfl, ?_, ?_, fun t => rfl, ?_⟩
  · intro t first rest h1 h2
    simp [callImplDecode, h1, h2]
  · intro t rest h
    have h2 : rest.length ≠ 2 := by simpa using h
    simp [callImplDecode, h2]
  · intro t r response h
    cases r with
    | timedOut => simp [callImplDecode] at h
    | msg frames =>
      cases frames with
      | nil => simp [callImplDecode] at h
      | cons first rest =>
        by_cases h1 : first = "OK"
        · subst h1
          simp [callImplDecode] at h
          rw [h]
        · by_cases h2 : first = "ERROR"
          · subst h2
            exfalso
            rcases rest with _ | ⟨c, _ | ⟨m2, _ | ⟨x3, rest3⟩⟩⟩
            · simp [callImplDecode] at h
            · simp [callImplDecode] at h
            · simp [callImplDecode] at h
              rcases ite_eq_iff.mp h with ⟨_, hy⟩ | ⟨_, hy⟩ <;>
                exact ClientResult.noConfusion hy
            · have hlen : ¬ (("ERROR" :: c :: m2 :: x3 :: rest3).length = 3) := by
                simp only [List.length_cons]
                omega
              simp [callImplDecode, hlen] at h
          · simp [callImplDecode, h1, h2] at h

theorem claim_C6_witness :
    (callImplDecode 300 (.msg []) = .protocolExc "empty response")
    ∧ (callImplDecode 300 (.msg ["BAD", "x"])
        = .protocolExc ("invalid response: " ++ pyReprBytesList ["BAD", "x"]))
    ∧ (callImplDecode 300 (.msg ["ERROR", "X"])
        = .protocolExc ("invalid error response: " ++ pyReprBytesList ["ERROR", "X"]))
    ∧ (callImplDecode 300 .timedOut
        = .timeoutExc ("no response from service after " ++ toString (300 : Int) ++ " ms"))
    ∧ ((.msg ["OK", "a"] : RecvOutcome) = .msg ("OK" :: ["a"])) :=
  ⟨claim_C6_client_reply_decoding.1 300,
   claim_C6_client_reply_decoding.2.1 300 "BAD" ["x"] (by decide) (by decide),
   claim_C6_client_reply_decoding.2.2.1 300 ["X"] (by decide),
   claim_C6_client_reply_decoding.2.2.2.1 300,
   claim_C6_client_reply_decoding.2.2.2.2 300 (.msg ["OK", "a"]) ["a"] rfl⟩

/-- A user-registered command whose handler raises an exception of a class
defined outside `builtins` (module `mymod`), used to exercise the generic
`except Exception` arm of the loop. -/
def boomExc : PyExc := ⟨"mymod", "Boom", "boom happened"⟩

/-- The handler that raises `boomExc`. -/
def boomHandler : Handler := .userH (fun _ => .exc boomExc)

/-- The registry entry for the `boom` command. -/
def boomInfo : CommandInfo :=
  ⟨some boomHandler,
   some ⟨"boom", "Raises an exception.", .DEFAULT, Arguments.none, "Nothing.", "Always raises."⟩⟩

/-- A service holding the `boom` command. -/
def boomService : Service := ⟨"svc", "desc", [("boom", boomInfo)]⟩

/-- C7 as stated is false: the loop's generic error arm formats the message
with `type(Exception()).__module__`, the module of the builtin `Exception`
class (`builtins`), not the raised exception's module, so the reply to
`boom` — whose handler raises an exception of `mymod.Boom` — carries the
message `builtins.Boom: boom happened`, which does not include the
exception's qualified name `mymod.Boom` at all. -/
theorem claim_C7_counterexample :
    serviceIteration boomService .RECEIVING (.msg ["boom"])
      = ⟨[.recv ["boom"],
          .send ["ERROR", "ERROR_UNCATEGORISED", "builtins.Boom: boom happened"]],
         .next .RECEIVING⟩
    ∧ ¬ ((boomExc.module ++ "." ++ boomExc.name).data <:+:
          ("builtins.Boom: boom happened" : String).data) :=
  ⟨rfl, by decide⟩

/-- C7 amended: for every handler that raises an exception other than a
ServiceException (UnknownCommand included), a state violation or a fatal
error, the service sends `[ERROR, ERROR_UNCATEGORISED, m]` where `m` is the
constant prefix `builtins.` (the module of the builtin `Exception` class,
not the raised exception's module) followed by the exception's type name, a
colon and space, and its string form. -/
theorem claim_C7_uncategorised_reply (s : Service) (command : String)
    (arguments : List String) (command_info : CommandInfo) (handler : Handler) (e : PyExc)
    (hlookup : assocGet s.command_map command = some command_info)
    (hhandler : command_info.handler = some handler)
    (hrun : s.runHandler handler arguments = .exc e) :
    serviceIteration s .RECEIVING (.msg (command :: arguments))
      = ⟨[.recv (command :: arguments),
          .send ["ERROR", "ERROR_UNCATEGORISED", "builtins." ++ e.name ++ ": " ++ e.str]],
         .next .RECEIVING⟩ := by
  simp [serviceIteration, receiveMessage, dispatchMessage, hlookup, hhandler, hrun,
    sendErrorBestEffort]

theorem claim_C7_witness :
    serviceIteration boomService .RECEIVING (.msg ["boom"])
      = ⟨[.recv ["boom"],
          .send ["ERROR", "ERROR_UNCATEGORISED",
                 "builtins." ++ boomExc.name ++ ": " ++ boomExc.str]],
         .next .RECEIVING⟩ :=
  claim_C7_uncategorised_reply boomService "boom" [] boomInfo boomHandler boomExc rfl rfl rfl

/-- The text of the long-running help line, without its line terminator. -/
def longRunMarker : String := "Can take a long time to run."

theorem longRunMarker_infix_helpString (command : String) (m : Metadata)
    (h : ¬ longRunMarker.data <:+: (helpString command { m with timeout := .DEFAULT }).data) :
    (longRunMarker.data <:+: (helpString command m).data) ↔ m.timeout.value > 300 := by
  obtain ⟨mname, mdescription, mtimeout, margs, mreturns, merrors⟩ := m
  cases mtimeout with
  | DEFAULT =>
    constructor
    · intro hin
      exact absurd hin h
    · intro hgt
      simp [Timeout.value] at hgt
  | LONG =>
    constructor
    · intro _
      norm_num [Timeout.value]
    · intro _
      have hsplit : helpString command ⟨mname, mdescription, .LONG, margs, mreturns, merrors⟩
          = helpStringHead command ⟨mname, mdescription, .LONG, margs, mreturns, merrors⟩
            ++ longRunLine
            ++ helpStringTail ⟨mname, mdescription, .LONG, margs, mreturns, merrors⟩ := by
        unfold helpString
        rw [if_pos (by norm_num [Timeout.value])]
      rw [hsplit]
      simp only [String.data_append]
      refine ⟨(helpStringHead command ⟨mname, mdescription, .LONG, margs, mreturns, merrors⟩).data,
        ("\\\n" : String).data
          ++ (helpStringTail ⟨mname, mdescription, .LONG, margs, mreturns, merrors⟩).data, ?_⟩
      have hseg : longRunMarker.data ++ ("\\\n" : String).data = longRunLine.data := rfl
      rw [← hseg]
      simp [List.append_assoc]

theorem helpScreenList_ok (cm : List (String × CommandInfo))
    (hmeta : ∀ p ∈ cm, p.2.metadata.isSome) :
    ∃ strs, helpScreenList cm = .ok strs ∧ strs.length = cm.length ∧
      ∀ (i : Nat) (hi : i < cm.length) (m : Metadata),
        (cm.get ⟨i, hi⟩).2.metadata = some m →
        ∃ (hj : i < strs.length), strs.get ⟨i, hj⟩ = helpString (cm.get ⟨i, hi⟩).1 m := by
  induction cm with
  | nil =>
    refine ⟨[], rfl, rfl, ?_⟩
    intro i hi
    exact absurd hi (by simp)
  | cons p rest ih =>
    obtain ⟨c, ci⟩ := p
    have hhead : ci.metadata.isSome := hmeta (c, ci) (List.mem_cons_self _ _)
    obtain ⟨m0, hm0⟩ := Option.isSome_iff_exists.mp hhead
    obtain ⟨strs, hok, hlen, hidx⟩ := ih (fun q hq => hmeta q (List.mem_cons_of_mem _ hq))
    refine ⟨helpString c m0 :: strs, ?_, by simp [hlen], ?_⟩
    · simp [helpScreenList, hm0, hok, Except.map]
    · intro i hi m hm
      cases i with
      | zero =>
        refine ⟨by simp, ?_⟩
        simp only [List.get] at hm ⊢
        rw [hm0] at hm
        injection hm with hmm
        rw [hmm]
      | succ n =>
        have hn : n < rest.length := by simpa using hi
        have hm2 : (rest.get ⟨n, hn⟩).2.metadata = some m := by simpa using hm
        obtain ⟨hj, hstr⟩ := hidx n hn m hm2
        refine ⟨by simpa using hj, ?_⟩
        simpa using hstr

/-- C8: for every registry in which each entry has valid metadata, `help`
returns exactly one rendered string per registered command, in registry
iteration order (the order `list` returns), and a rendered string contains
the line `Can take a long time to run.` (none of the metadata's own text
fields containing that marker, which the second hypothesis states as the
marker not occurring in the entry rendered with the `DEFAULT` timeout) if
and only if that command's timeout value exceeds `DEFAULT` (300). -/
theorem claim_C8_help_screen (s : Service)
    (hmeta : ∀ p ∈ s.command_map, p.2.metadata.isSome)
    (hmarker : ∀ p ∈ s.command_map, ∀ m, p.2.metadata = some m →
      ¬ longRunMarker.data <:+: (helpString p.1 { m with timeout := .DEFAULT }).data) :
    ∃ strs, s.help_screen = .ok strs
      ∧ strs.length = s.list.length
      ∧ s.list = s.command_map.map Prod.fst
      ∧ ∀ (i : Nat) (hi : i < s.command_map.length) (m : Metadata),
          (s.command_map.get ⟨i, hi⟩).2.metadata = some m →
          ∃ (hj : i < strs.length),
            strs.get ⟨i, hj⟩ = helpString (s.command_map.get ⟨i, hi⟩).1 m
            ∧ ((longRunMarker.data <:+: (strs.get ⟨i, hj⟩).data) ↔ m.timeout.value > 300) := by
  obtain ⟨strs, hok, hlen, hidx⟩ := helpScreenList_ok s.command_map hmeta
  refine ⟨strs, hok, by simp [Service.list, hlen], rfl, ?_⟩
  intro i hi m hm
  obtain ⟨hj, hstr⟩ := hidx i hi m hm
  refine ⟨hj, hstr, ?_⟩
  rw [hstr]
  exact longRunMarker_infix_helpString _ m
    (hmarker _ (List.get_mem _ _ _) m hm)

/-- A two-command service used to evaluate the help screen: one command with
the `DEFAULT` timeout and one with `LONG`. -/
def helpWitnessService : Service :=
  ⟨"s", "d",
   [("quick",
     ⟨some (.userH fun _ => .ok []),
      some ⟨"quick", "Quick.", .DEFAULT, Arguments.none, "r", "e"⟩⟩),
    ("slow",
     ⟨some (.userH fun _ => .ok []),
      some ⟨"slow", "Slow.", .LONG, Arguments.none, "r", "e"⟩⟩)]⟩

set_option maxRecDepth 10000 in
theorem claim_C8_witness :
    ∃ strs, helpWitnessService.help_screen = .ok strs
      ∧ strs.length = helpWitnessService.list.length
      ∧ helpWitnessService.list = helpWitnessService.command_map.map Prod.fst
      ∧ ∀ (i : Nat) (hi : i < helpWitnessService.command_map.length) (m : Metadata),
          (helpWitnessService.command_map.get ⟨i, hi⟩).2.metadata = some m →
          ∃ (hj : i < strs.length),
            strs.get ⟨i, hj⟩ = helpString (helpWitnessService.command_map.get ⟨i, hi⟩).1 m
            ∧ ((longRunMarker.data <:+: (strs.get ⟨i, hj⟩).data) ↔ m.timeout.value > 300) :=
  claim_C8_help_screen helpWitnessService (by decide)
    (by
      intro p hp m hm
      rcases List.mem_cons.mp hp with h | hp2
      · subst h
        simp only [helpWitnessService] at hm
        injection hm with hmm
        subst hmm
        decide
      · rcases List.mem_cons.mp hp2 with h | hnil
        · subst h
          simp only [helpWitnessService] at hm
          injection hm with hmm
          subst hmm
          decide
        · exact absurd hnil (List.not_mem_nil p))

theorem serviceIteration_shape (s : Service) (m : List String) :
    (∃ reply, serviceIteration s .RECEIVING (.msg m)
        = ⟨[.recv m, .send reply], .next .RECEIVING⟩
      ∧ ((∃ response, reply = "OK" :: response)
          ∨ (∃ code message, reply = ["ERROR", code, message])))
    ∨ (serviceIteration s .RECEIVING (.msg m) = ⟨[.recv m], .breakLoop⟩
        ∨ serviceIteration s .RECEIVING (.msg m) = ⟨[.recv m], .reraise⟩) := by
  rcases m with _ | ⟨command, arguments⟩
  · exact Or.inl ⟨["ERROR", "ERROR_UNCATEGORISED", "builtins.IndexError: list index out of range"],
      rfl, Or.inr ⟨_, _, rfl⟩⟩
  · cases hlk : assocGet s.command_map command with
    | none =>
      refine Or.inl ⟨["ERROR", "ERROR_UNKNOWN_COMMAND", command], ?_, Or.inr ⟨_, _, rfl⟩⟩
      simp [serviceIteration, receiveMessage, dispatchMessage, hlk, sendErrorBestEffort]
    | some command_info =>
      cases hh : command_info.handler with
      | none =>
        refine Or.inl ⟨["ERROR", "ERROR_UNCATEGORISED",
          "builtins.RuntimeError: handler missing or not valid for " ++ command],
          ?_, Or.inr ⟨_, _, rfl⟩⟩
        simp [serviceIteration, receiveMessage, dispatchMessage, hlk, hh, sendErrorBestEffort]
      | some handler =>
        cases hr : s.runHandler handler arguments with
        | ok response =>
          refine Or.inl ⟨"OK" :: response, ?_, Or.inl ⟨response, rfl⟩⟩
          simp [serviceIteration, receiveMessage, dispatchMessage, hlk, hh, hr, sendOkChecked]
        | serviceExc code message =>
          refine Or.inl ⟨["ERROR", code, message], ?_, Or.inr ⟨_, _, rfl⟩⟩
          simp [serviceIteration, receiveMessage, dispatchMessage, hlk, hh, hr, sendErrorBestEffort]
        | fatalServiceError =>
          refine Or.inr (Or.inr ?_)
          simp [serviceIteration, receiveMessage, dispatchMessage, hlk, hh, hr]
        | keyboardInterrupt =>
          refine Or.inr (Or.inl ?_)
          simp [serviceIteration, receiveMessage, dispatchMessage, hlk, hh, hr]
        | exc e =>
          refine Or.inl ⟨["ERROR", "ERROR_UNCATEGORISED", "builtins." ++ e.name ++ ": " ++ e.str],
            ?_, Or.inr ⟨_, _, rfl⟩⟩
          simp [serviceIteration, receiveMessage, dispatchMessage, hlk, hh, hr, sendErrorBestEffort]

theorem serviceMainIteration_shape (cm : List (String × PyCommandInfo)) (m : List String) :
    (∃ reply, serviceMainIteration cm .RECEIVING (.msg m)
        = ⟨[.recv m, .send reply], .next .RECEIVING⟩
      ∧ ((∃ response, reply = "OK" :: response)
          ∨ (∃ code message, reply = ["ERROR", code, message])))
    ∨ serviceMainIteration cm .RECEIVING (.msg m) = ⟨[.recv m], .breakLoop⟩ := by
  rcases m with _ | ⟨command, arguments⟩
  · exact Or.inl ⟨["ERROR", "ERROR_UNCATEGORISED", "builtins.IndexError: list index out of range"],
      rfl, Or.inr ⟨_, _, rfl⟩⟩
  · cases hlk : assocGet cm command with
    | none =>
      refine Or.inl ⟨["ERROR", "ERROR_UNKNOWN_COMMAND", "unknown command"], ?_, Or.inr ⟨_, _, rfl⟩⟩
      simp [serviceMainIteration, receiveMessage, serviceMainDispatch, hlk, sendErrorBestEffort]
    | some command_info =>
      cases hh : command_info.handler with
      | none =>
        refine Or.inl ⟨["ERROR", "ERROR_UNCATEGORISED",
          "builtins.RuntimeError: handler missing or not valid for " ++ command],
          ?_, Or.inr ⟨_, _, rfl⟩⟩
        simp [serviceMainIteration, receiveMessage, serviceMainDispatch, hlk, hh, sendErrorBestEffort]
      | some handler =>
        cases hr : pyRunHandler cm handler arguments with
        | ok response =>
          refine Or.inl ⟨"OK" :: response, ?_, Or.inl ⟨response, rfl⟩⟩
          simp [serviceMainIteration, receiveMessage, serviceMainDispatch, hlk, hh, hr, sendOkChecked]
        | error pr =>
          cases pr with
          | unknownCommandExc c =>
            refine Or.inl ⟨["ERROR", "ERROR_UNKNOWN_COMMAND", "unknown command"], ?_,
              Or.inr ⟨_, _, rfl⟩⟩
            simp [serviceMainIteration, receiveMessage, serviceMainDispatch, hlk, hh, hr,
              sendErrorBestEffort]
          | keyboardInterruptExc =>
            refine Or.inr ?_
            simp [serviceMainIteration, receiveMessage, serviceMainDispatch, hlk, hh, hr]
          | otherExc e =>
            refine Or.inl ⟨["ERROR", "ERROR_UNCATEGORISED", "builtins." ++ e.name ++ ": " ++ e.str],
              ?_, Or.inr ⟨_, _, rfl⟩⟩
            simp [serviceMainIteration, receiveMessage, serviceMainDispatch, hlk, hh, hr,
              sendErrorBestEffort]

theorem runLoop_alternates (s : Service) (script : List RecvEvent) :
    List.Chain' (fun a b => a.isRecv ≠ b.isRecv) (runLoop s .RECEIVING script)
    ∧ (∀ op ∈ (runLoop s .RECEIVING script).head?, op.isRecv = true) := by
  induction script with
  | nil => exact ⟨List.chain'_nil, by simp [runLoop]⟩
  | cons ev rest ih =>
    obtain ⟨ihchain, ihhead⟩ := ih
    cases ev with
    | interrupt =>
      constructor
      · simp [runLoop, serviceIteration, receiveMessage]
      · simp [runLoop, serviceIteration, receiveMessage]
    | msg m =>
      rcases serviceIteration_shape s m with ⟨reply, heq, _⟩ | ⟨heq | heq⟩
      · have hrl : runLoop s .RECEIVING (.msg m :: rest)
            = .recv m :: .send reply :: runLoop s .RECEIVING rest := by
          simp [runLoop, heq]
        rw [hrl]
        constructor
        · rw [List.chain'_cons]
          refine ⟨by simp [TransportOp.isRecv], ?_⟩
          cases hcase : runLoop s .RECEIVING rest with
          | nil => simp
          | cons op tail =>
            rw [List.chain'_cons]
            have hop : op.isRecv = true := ihhead op (by simp [hcase])
            refine ⟨by rw [hop]; simp [TransportOp.isRecv], ?_⟩
            rw [hcase] at ihchain
            exact ihchain
        · simp [TransportOp.isRecv]
      · rw [show runLoop s .RECEIVING (.msg m :: rest) = [.recv m] from by simp [runLoop, heq]]
        exact ⟨List.chain'_singleton _, by simp [TransportOp.isRecv]⟩
      · rw [show runLoop s .RECEIVING (.msg m :: rest) = [.recv m] from by simp [runLoop, heq]]
        exact ⟨List.chain'_singleton _, by simp [TransportOp.isRecv]⟩

theorem serviceMainLoop_alternates (cm : List (String × PyCommandInfo))
    (script : List RecvEvent) :
    List.Chain' (fun a b => a.isRecv ≠ b.isRecv) (serviceMainLoop cm .RECEIVING script)
    ∧ (∀ op ∈ (serviceMainLoop cm .RECEIVING script).head?, op.isRecv = true) := by
  induction script with
  | nil => exact ⟨List.chain'_nil, by simp [serviceMainLoop]⟩
  | cons ev rest ih =>
    obtain ⟨ihchain, ihhead⟩ := ih
    cases ev with
    | interrupt =>
      constructor
      · simp [serviceMainLoop, serviceMainIteration, receiveMessage]
      · simp [serviceMainLoop, serviceMainIteration, receiveMessage]
    | msg m =>
      rcases serviceMainIteration_shape cm m with ⟨reply, heq, _⟩ | heq
      · have hrl : serviceMainLoop cm .RECEIVING (.msg m :: rest)
            = .recv m :: .send reply :: serviceMainLoop cm .RECEIVING rest := by
          simp [serviceMainLoop, heq]
        rw [hrl]
        constructor
        · rw [List.chain'_cons]
          refine ⟨by simp [TransportOp.isRecv], ?_⟩
          cases hcase : serviceMainLoop cm .RECEIVING rest with
          | nil => simp
          | cons op tail =>
            rw [List.chain'_cons]
            have hop : op.isRecv = true := ihhead op (by simp [hcase])
            refine ⟨by rw [hop]; simp [TransportOp.isRecv], ?_⟩
            rw [hcase] at ihchain
            exact ihchain
        · simp [TransportOp.isRecv]
      · rw [show serviceMainLoop cm .RECEIVING (.msg m :: rest) = [.recv m] from by
          simp [serviceMainLoop, heq]]
        exact ⟨List.chain'_singleton _, by simp [TransportOp.isRecv]⟩

/-- C1: accepting a request in state `RECEIVING` moves the state to
`SENDING`; every loop iteration that accepts a request either sends exactly
one reply (an `OK` reply or a three-frame `ERROR` reply) as its very next
transport operation and continues in state `RECEIVING`, or terminates the
loop without any further transport operation; and over every run of either
loop the transport trace strictly alternates — never two consecutive
receives nor two consecutive sends. -/
theorem claim_C1_strict_alternation :
    (∀ m : List String, receiveMessage .RECEIVING (.msg m) = .received m .SENDING)
    ∧ (∀ (s : Service) (m : List String),
        (∃ reply, serviceIteration s .RECEIVING (.msg m)
            = ⟨[.recv m, .send reply], .next .RECEIVING⟩
          ∧ ((∃ response, reply = "OK" :: response)
              ∨ (∃ code message, reply = ["ERROR", code, message])))
        ∨ (serviceIteration s .RECEIVING (.msg m) = ⟨[.recv m], .breakLoop⟩
            ∨ serviceIteration s .RECEIVING (.msg m) = ⟨[.recv m], .reraise⟩))
    ∧ (∀ (s : Service) (script : List RecvEvent),
        List.Chain' (fun a b => a.isRecv ≠ b.isRecv) (s.runTrace script))
    ∧ (∀ (cm : List (String × PyCommandInfo)) (script : List RecvEvent),
        List.Chain' (fun a b => a.isRecv ≠ b.isRecv) (serviceMainTrace cm script)) :=
  ⟨fun _ => rfl,
   serviceIteration_shape,
   fun s script => (runLoop_alternates s script).1,
   fun cm script => (serviceMainLoop_alternates cm script).1⟩
